import Mathlib

/-!
Verification of the cachetic typed-caching facade against its sources.

The embedding follows `src/cachetic/__init__.py` (the `Cachetic` client:
key prefixing, TTL resolution, the type-driven codec dispatch in `get`
and `set`, `get_or_raise`) and `src/cachetic/extensions/mongodb.py`
(the document-store backend's lazy eviction on `get`).

Modelling conventions:
- machine strings and byte payloads are Lean `String` and `List Nat`;
- Python exceptions become `Except` errors;
- the payload stored in a backend is an inductive `Payload` whose
  constructors tag which codec produced the bytes; external serializers
  that the library only routes through (the json module, pickle, the
  pydantic schema serializers, the float repr) are modelled as exact
  inverse pairs, which is the contract the library relies on, while the
  conversions the library's own lines perform (decimal integer text,
  the boolean sentinel bytes, utf-8 text, key prefixing, TTL policy)
  are modelled concretely.
-/

/-- JSON values, the image of the json module's loads on the payloads
this library produces (numeric leaves restricted to integers). -/
inductive Json where
  | null
  | bool (b : Bool)
  | num (n : Int)
  | str (s : String)
  | arr (xs : List Json)
  | obj (fs : List (String × Json))

/-- Python float values, abstracted by their shortest round-trip decimal
representation: the float-to-text and text-to-float conversions used on
the store path are exact inverses on this representation. -/
structure PyFloat where
  reprStr : String

/-- The Python values a `Cachetic` client caches, covering the supported
logical types of the dispatch (bytes, str, int, float, bool, list, dict,
schema-validated records, arbitrary objects) plus `None`. Lists and dicts
carry JSON-representable elements, the domain on which the json round
trip is exact. -/
inductive PyValue where
  | bytes (bs : List Nat)
  | str (s : String)
  | int (n : Int)
  | float (f : PyFloat)
  | bool (b : Bool)
  | list (xs : List Json)
  | dict (fs : List (String × Json))
  | record (fs : List (String × Json))
  | pynone

/-- The byte payload stored in a backend. Constructors tag the codec that
produced the bytes: `raw` and `text` are byte-exact (utf-8 for `text`);
`json`, `schemaJson`, `floatRepr` and `pickle` stand for the output of the
external serializers (json.dumps, pydantic's dump_json, Python's float
repr, pickle.dumps), each modelled by the value it encodes since each of
those encoders is injective with the matching decoder as inverse. -/
inductive Payload where
  | raw (bs : List Nat)
  | text (s : String)
  | json (j : Json)
  | schemaJson (fs : List (String × Json))
  | floatRepr (f : PyFloat)
  | pickle (v : PyValue)

/-- The runtime type token held in the client's `object_type` field, one
constructor per branch of the source's dispatch chains: a pydantic model
class (has `model_validate_json`), a pydantic `TypeAdapter`, the builtin
types `bytes`/`str`/`int`/`float`/`bool`/`list`/`dict`, the `object`
fallback, and `unsupported` for any other type token (which matches no
branch and reaches the trailing `raise ValueError`). -/
inductive ObjectType where
  | model
  | adapter
  | bytes
  | str
  | int
  | float
  | bool
  | list
  | dict
  | obj
  | unsupported

/-- Errors surfaced by the client, mirroring the Python exception classes:
`valueError` carries the message (`int()` parse failures and the
"Unsupported object type" dispatch miss are both `ValueError` in the
source), `typeError` the `TypeError`-like failures, `validationError`
pydantic's schema mismatch, `cacheNotFound` the library's own
`CacheNotFoundError`. -/
inductive PyErr where
  | valueError (msg : String)
  | typeError
  | validationError
  | cacheNotFound
deriving DecidableEq

/- ### Decimal integer text codec

`set` hands the raw Python int to the backend, which stores its decimal
text (`str(value)` bytes); `get` recovers it with `int(data)`. The
encoder and the parser are modelled concretely below. -/

/-- The ASCII character of a decimal digit value. -/
def digitChar (d : Nat) : Char := Char.ofNat (48 + d)

/-- Decimal digit characters of a natural number, most significant first
(`"0"` for zero), as `str` prints it. -/
def natDecChars (n : Nat) : List Char :=
  if n = 0 then ['0'] else (Nat.digits 10 n).reverse.map digitChar

/-- Decimal text of a Python int: optional leading minus sign then
digits, exactly the form `str(value)` produces. -/
def intToDecString (i : Int) : String :=
  if i < 0 then String.mk ('-' :: natDecChars i.natAbs)
  else String.mk (natDecChars i.natAbs)

/-- Numeric value of a most-significant-first decimal character list. -/
def decCharsVal (cs : List Char) : Nat :=
  cs.foldl (fun a c => a * 10 + (c.toNat - 48)) 0

/-- Whether every character is an ASCII decimal digit. -/
def allDecDigits (cs : List Char) : Bool :=
  cs.all fun c => 48 ≤ c.toNat && c.toNat ≤ 57

/-- Parse a nonempty all-digit character list to a natural number. -/
def parseDecNat (cs : List Char) : Option Nat :=
  if cs ≠ [] ∧ allDecDigits cs = true then some (decCharsVal cs) else none

/-- Parse decimal integer text from a character list: an optional single
sign followed by at least one digit. -/
def parseIntChars : List Char → Option Int
  | [] => none
  | c :: cs =>
    if c = '-' then
      match parseDecNat cs with
      | some n => some (-(n : Int))
      | none => none
    else if c = '+' then
      match parseDecNat cs with
      | some n => some ((n : Int))
      | none => none
    else
      match parseDecNat (c :: cs) with
      | some n => some ((n : Int))
      | none => none

/-- Parse decimal integer text the way `int(data)` does on the payloads
this library produces. (Python's `int` additionally strips surrounding
whitespace and allows underscore group separators; no stored payload of
this library contains either, so those are not modelled.) -/
def parseInt (s : String) : Option Int := parseIntChars s.data

theorem digitChar_toNat {d : Nat} (h : d < 10) : (digitChar d).toNat = 48 + d := by
  interval_cases d <;> rfl

theorem digitChar_isDigit {d : Nat} (h : d < 10) :
    (48 ≤ (digitChar d).toNat && (digitChar d).toNat ≤ 57) = true := by
  interval_cases d <;> rfl

theorem decCharsVal_reverse_map (L : List Nat) (h : ∀ d ∈ L, d < 10) :
    decCharsVal (L.reverse.map digitChar) = Nat.ofDigits 10 L := by
  induction L with
  | nil => rfl
  | cons d T ih =>
    have hd : d < 10 := h d (List.mem_cons_self d T)
    have hT : ∀ x ∈ T, x < 10 := fun x hx => h x (List.mem_cons_of_mem d hx)
    have step : decCharsVal ((T.reverse.map digitChar) ++ [digitChar d]) =
        decCharsVal (T.reverse.map digitChar) * 10 + ((digitChar d).toNat - 48) := by
      simp [decCharsVal, List.foldl_append]
    calc decCharsVal ((d :: T).reverse.map digitChar)
        = decCharsVal ((T.reverse.map digitChar) ++ [digitChar d]) := by
          simp [List.reverse_cons]
      _ = decCharsVal (T.reverse.map digitChar) * 10 + ((digitChar d).toNat - 48) := step
      _ = Nat.ofDigits 10 T * 10 + d := by
          rw [ih hT, digitChar_toNat hd]
          omega
      _ = Nat.ofDigits 10 (d :: T) := by
          rw [Nat.ofDigits_cons]
          ring

theorem allDecDigits_natDecChars (n : Nat) : allDecDigits (natDecChars n) = true := by
  by_cases h : n = 0
  · subst h; rfl
  · simp only [natDecChars, if_neg h, allDecDigits, List.all_eq_true]
    intro c hc
    rcases List.mem_map.mp hc with ⟨d, hd, rfl⟩
    exact digitChar_isDigit (Nat.digits_lt_base (by norm_num) (List.mem_reverse.mp hd))

theorem natDecChars_ne_nil (n : Nat) : natDecChars n ≠ [] := by
  by_cases h : n = 0
  · subst h; simp [natDecChars]
  · simp only [natDecChars, if_neg h]
    simp [Nat.digits_ne_nil_iff_ne_zero, h]

theorem parseDecNat_natDecChars (n : Nat) : parseDecNat (natDecChars n) = some n := by
  rw [parseDecNat, if_pos ⟨natDecChars_ne_nil n, allDecDigits_natDecChars n⟩]
  by_cases h : n = 0
  · subst h; rfl
  · simp only [natDecChars, if_neg h]
    rw [decCharsVal_reverse_map _ fun d hd => Nat.digits_lt_base (by norm_num) hd,
      Nat.ofDigits_digits]

theorem natDecChars_head_digit (n : Nat) (c : Char) (cs : List Char)
    (h : natDecChars n = c :: cs) : 48 ≤ c.toNat ∧ c.toNat ≤ 57 := by
  have hall := allDecDigits_natDecChars n
  rw [h] at hall
  simp only [allDecDigits, List.all_cons, Bool.and_eq_true, decide_eq_true_eq] at hall
  exact ⟨hall.1.1, hall.1.2⟩

/-- Round trip of the decimal integer codec: parsing the decimal text of
an integer recovers it. -/
theorem parseInt_intToDecString (i : Int) : parseInt (intToDecString i) = some i := by
  rcases hx : natDecChars i.natAbs with - | ⟨c, cs⟩
  · exact absurd hx (natDecChars_ne_nil i.natAbs)
  obtain ⟨h48, h57⟩ := natDecChars_head_digit i.natAbs c cs hx
  have hcm : c ≠ '-' := by
    intro h; subst h; exact absurd h48 (by decide)
  have hcp : c ≠ '+' := by
    intro h; subst h; exact absurd h48 (by decide)
  by_cases hneg : i < 0
  · have hstr : intToDecString i = String.mk ('-' :: natDecChars i.natAbs) := by
      rw [intToDecString, if_pos hneg]
    have hrun : parseIntChars ('-' :: natDecChars i.natAbs) = some (-(i.natAbs : Int)) := by
      rw [parseIntChars, if_pos rfl, parseDecNat_natDecChars]
    rw [hstr, parseInt]
    show parseIntChars ('-' :: natDecChars i.natAbs) = some i
    rw [hrun]
    congr 1
    omega
  · have hstr : intToDecString i = String.mk (natDecChars i.natAbs) := by
      rw [intToDecString, if_neg hneg]
    have hrun : parseIntChars (natDecChars i.natAbs) = some ((i.natAbs : Int)) := by
      rw [hx, parseIntChars, if_neg hcm, if_neg hcp, ← hx, parseDecNat_natDecChars]
    rw [hstr, parseInt]
    show parseIntChars (natDecChars i.natAbs) = some i
    rw [hrun]
    congr 1
    omega

/-- Only payloads containing a digit parse: any text with no decimal
digit at all (such as "abc") fails to parse as an integer. -/
theorem parseInt_none_of_no_digit (s : String)
    (h : ∀ c ∈ s.data, ¬(48 ≤ c.toNat ∧ c.toNat ≤ 57)) : parseInt s = none := by
  have hsub : ∀ cs : List Char, (∀ c ∈ cs, ¬(48 ≤ c.toNat ∧ c.toNat ≤ 57)) →
      parseDecNat cs = none := by
    intro cs hcs
    match cs with
    | [] => rfl
    | c :: rest =>
      rw [parseDecNat, if_neg]
      rintro ⟨-, hall⟩
      simp only [allDecDigits, List.all_cons, Bool.and_eq_true, decide_eq_true_eq] at hall
      exact hcs c (List.mem_cons_self c rest) ⟨hall.1.1, hall.1.2⟩
  rw [parseInt]
  rcases hs : s.data with - | ⟨c, cs⟩
  · rfl
  · have hcs : ∀ x ∈ cs, ¬(48 ≤ x.toNat ∧ x.toNat ≤ 57) := by
      intro x hx
      exact h x (by rw [hs]; exact List.mem_cons_of_mem c hx)
    have hall : ∀ x ∈ c :: cs, ¬(48 ≤ x.toNat ∧ x.toNat ≤ 57) := by
      intro x hx
      exact h x (by rw [hs]; exact hx)
    rw [parseIntChars]
    split
    · rw [hsub cs hcs]
    · split
      · rw [hsub cs hcs]
      · rw [hsub (c :: cs) hall]

/- ### Codec dispatch

`Cachetic.set` and `Cachetic.get` dispatch on the client's `object_type`
token through an ordered elif chain; the two functions below embed those
chains (the encoder is the dump section of `set`, lines 184-209; the
decoder is the dispatch section of `get`, lines 123-157). Payload kinds
produced by one codec and read back by a different client's codec are
cross-codec corners the library never exercises (a client's descriptor
is fixed at construction and applied to every call); such mismatches map
to an error constructor below. -/

/-- Python truthiness of a cached value (`b"1" if value else b"0"`). -/
def isTruthy : PyValue → Bool
  | .bool b => b
  | .int n => decide (n ≠ 0)
  | .str s => decide (s ≠ "")
  | .bytes bs => decide (bs ≠ [])
  | .float f => !(f.reprStr == "0.0" || f.reprStr == "-0.0")
  | .list xs => !xs.isEmpty
  | .dict fs => !fs.isEmpty
  | .record _ => true
  | .pynone => false

/-- `json.dumps(value, default=str)` on the values this embedding covers:
JSON-representable values serialize exactly; the stringifying `default`
fallback for other leaves is lossy and outside every claim, so those
values are not modelled. -/
def jsonDump : PyValue → Except PyErr Payload
  | .list xs => .ok (.json (.arr xs))
  | .dict fs => .ok (.json (.obj fs))
  | .str s => .ok (.json (.str s))
  | .int n => .ok (.json (.num n))
  | .bool b => .ok (.json (.bool b))
  | .pynone => .ok (.json .null)
  | _ => .error .typeError

/-- The Python value `json.loads` returns for a JSON document (`get`
returns it unchecked for the `list` and `dict` descriptors). -/
def pyOfJson : Json → PyValue
  | .null => .pynone
  | .bool b => .bool b
  | .num n => .int n
  | .str s => .str s
  | .arr xs => .list xs
  | .obj fs => .dict fs

/-- Encoder: the value-dump section of `Cachetic.set`, one arm per elif
branch in source order. A value of the wrong shape for the declared
descriptor fails the way the source's attribute or validation access
would. The `int` and `float` branches pass the raw object through
(`_value = value`); the backend then stores its decimal text, which is
what the payload records. -/
def encodeValue : ObjectType → PyValue → Except PyErr Payload
  | .model, .record fs => .ok (.schemaJson fs)
  | .model, _ => .error .validationError
  | .adapter, .record fs => .ok (.schemaJson fs)
  | .adapter, _ => .error .validationError
  | .bytes, .bytes bs => .ok (.raw bs)
  | .bytes, _ => .error .typeError
  | .str, .str s => .ok (.text s)
  | .str, _ => .error .typeError
  | .int, .int n => .ok (.text (intToDecString n))
  | .int, _ => .error .typeError
  | .float, .float f => .ok (.floatRepr f)
  | .float, _ => .error .typeError
  | .bool, v => .ok (.raw (if isTruthy v then [49] else [48]))
  | .list, v => jsonDump v
  | .dict, v => jsonDump v
  | .obj, v => .ok (.pickle v)
  | .unsupported, _ => .error (.valueError "Unsupported object type")

/-- Whether the payload's byte image equals `b"0"` (the source's boolean
decode compares `data == b"0"`): true exactly for the raw byte 48, the
text "0", and the JSON document of the integer 0 (whose dump is "0");
float reprs always contain a dot or exponent, schema JSON starts with a
brace and pickle blobs with an opcode byte, so none of those can be the
single byte 48. -/
def Payload.isZeroBytes : Payload → Bool
  | .raw bs => bs == [48]
  | .text s => s == "0"
  | .json (.num 0) => true
  | .json _ => false
  | .floatRepr _ => false
  | .schemaJson _ => false
  | .pickle _ => false

/-- Decoder: the dispatch section of `Cachetic.get`, one arm per branch
in source order. The `int` arm parses the stored decimal text with
`int(data)` (a `ValueError` on failure); the `bool` arm returns `False`
exactly on `b"0"` and `True` on anything else; the `list` and `dict`
arms return whatever `json.loads` yields, unchecked. -/
def decodePayload : ObjectType → Payload → Except PyErr PyValue
  | .model, .schemaJson fs => .ok (.record fs)
  | .model, _ => .error .validationError
  | .adapter, .schemaJson fs => .ok (.record fs)
  | .adapter, _ => .error .validationError
  | .bytes, .raw bs => .ok (.bytes bs)
  | .bytes, _ => .error .typeError
  | .str, .text s => .ok (.str s)
  | .str, _ => .error .typeError
  | .int, .text s =>
    match parseInt s with
    | some n => .ok (.int n)
    | none => .error (.valueError "invalid literal for int")
  | .int, _ => .error (.valueError "invalid literal for int")
  | .float, .floatRepr f => .ok (.float f)
  | .float, _ => .error (.valueError "could not convert string to float")
  | .bool, p => .ok (.bool (! Payload.isZeroBytes p))
  | .list, .json j => .ok (pyOfJson j)
  | .list, _ => .error (.valueError "json decode error")
  | .dict, .json j => .ok (pyOfJson j)
  | .dict, _ => .error (.valueError "json decode error")
  | .obj, .pickle v => .ok v
  | .obj, _ => .error (.valueError "unpickling error")
  | .unsupported, _ => .error (.valueError "Unsupported object type")

/-- A value is a representative of a logical type descriptor when it has
the shape that descriptor declares; the `object` fallback accepts every
value, and no value represents an unsupported descriptor. -/
def wellTyped : ObjectType → PyValue → Bool
  | .model, .record _ => true
  | .adapter, .record _ => true
  | .bytes, .bytes _ => true
  | .str, .str _ => true
  | .int, .int _ => true
  | .float, .float _ => true
  | .bool, .bool _ => true
  | .list, .list _ => true
  | .dict, .dict _ => true
  | .obj, _ => true
  | _, _ => false

/-- Codec round trip: for every supported descriptor and representative
value, encoding succeeds and decoding the produced payload recovers the
value. -/
theorem codec_roundtrip (t : ObjectType) (v : PyValue) (h : wellTyped t v = true) :
    ∃ p, encodeValue t v = .ok p ∧ decodePayload t p = .ok v := by
  cases t <;> cases v <;> simp_all [wellTyped, encodeValue, decodePayload, jsonDump, pyOfJson]
  case bool.bool b =>
    cases b <;> simp [isTruthy, Payload.isZeroBytes]
  case int.int n =>
    rw [parseInt_intToDecString]

/- ### The cache client -/

/-- The `Cachetic` client's configuration fields (a pydantic settings
model in the source, immutable after construction). `cache_pfx` is the
source's cache-prefix field (default ""); `cache_ttl` is the default TTL
(-1 no expiration, 0 documented as "disable cache", >0 seconds);
`cache_url` and `cache_dir` select and locate the backend and play no
role in the claims below. -/
structure Cachetic where
  object_type : ObjectType
  cache_url : Option String
  cache_dir : String
  cache_ttl : Int
  cache_pfx : String

/-- `Cachetic.get_cache_key`: the physical key is the logical key, with
the configured non-empty namespace prepended as "ns:key" when requested
(`with_prefix and self.cache_prefix` — the Python truthiness of the
namespace string is its non-emptiness). -/
def Cachetic.get_cache_key (c : Cachetic) (key : String) (wp : Bool) : String :=
  if wp && !(c.cache_pfx == "") then c.cache_pfx ++ ":" ++ key else key

/-- The TTL resolution on `set`'s line 180:
`ex = ex if ex is not None else self.cache_ttl if self.cache_ttl > 0 else None`. -/
def resolveTtl (ex : Option Int) (ttl : Int) : Option Int :=
  match ex with
  | some x => some x
  | none => if ttl > 0 then some ttl else none

/-- A backend's key-value state: an association list of physical key to
stored payload; a write prepends (shadowing any older entry, the upsert
of the backend's `set`), and reads take the most recent entry. The
backends' native expiry is not modelled: every claim about stored data
reads the store at a single instant. -/
def Store : Type := List (String × Payload)

/-- Backend read: the payload currently stored at a physical key. -/
def storeGet (s : Store) (k : String) : Option Payload :=
  List.lookup k s

/-- Backend write (upsert). -/
def storeSet (s : Store) (k : String) (p : Payload) : Store :=
  (k, p) :: s

/-- What a call to `Cachetic.set` asked of the backend: nothing (the
early return on a resolved TTL of 0), or one write of a payload at a
physical key with an optional TTL. -/
inductive SetResult where
  | skipped
  | wrote (key : String) (p : Payload) (ttl : Option Int)

/-- The backend state after performing a `set`'s request. -/
def applySet (s : Store) (r : SetResult) : Store :=
  match r with
  | .skipped => s
  | .wrote k p _ => storeSet s k p

/-- `Cachetic.set`: computes the physical key, resolves the TTL, returns
early when the resolved TTL equals 0 (`ex == 0` is false in Python when
`ex` is `None`, so a default TTL of 0 with no per-call TTL resolves to
`None` and does NOT skip), then encodes the value and hands key, payload
and TTL to the backend. -/
def Cachetic.set (c : Cachetic) (key : String) (v : PyValue) (ex : Option Int) :
    Except PyErr SetResult :=
  let k := Cachetic.get_cache_key c key true
  let ex := resolveTtl ex c.cache_ttl
  if ex = some 0 then .ok .skipped
  else
    match encodeValue c.object_type v with
    | .ok p => .ok (.wrote k p ex)
    | .error e => .error e

/-- `Cachetic.get`: computes the physical key, reads the backend, returns
absent on a missing payload, and otherwise decodes through the dispatch
chain. -/
def Cachetic.get (c : Cachetic) (s : Store) (key : String) :
    Except PyErr (Option PyValue) :=
  match storeGet s (Cachetic.get_cache_key c key true) with
  | none => .ok none
  | some data =>
    match decodePayload c.object_type data with
    | .ok v => .ok (some v)
    | .error e => .error e

/-- `Cachetic.get_or_raise`: calls `get`; a `None` result becomes a
`CacheNotFoundError`; any exception `get` raises propagates. -/
def Cachetic.get_or_raise (c : Cachetic) (s : Store) (key : String) :
    Except PyErr PyValue :=
  match Cachetic.get c s key with
  | .ok none => .error .cacheNotFound
  | .ok (some v) => .ok v
  | .error e => .error e

/-- Modelled from the spec: the backend capability's delete
(spec 4.3 "delete(physical_key) — idempotent, no error if absent"); the
concrete backend drivers (redis, diskcache, the document store) are
external to the sources provided. Removes every entry under the key and
is total (no error path). -/
def backendDelete (s : Store) (k : String) : Store :=
  List.filter (fun e => !(e.1 == k)) s

/-- Modelled from the spec: the client's public `delete` operation is
absent from the sources provided (its caller `tests/test_mongo_cache.py`
invokes `cache.delete(key)`); spec 4.4 defines it as "computes physical
key, forwards to Backend Capability". -/
def Cachetic.delete (c : Cachetic) (s : Store) (key : String) : Store :=
  backendDelete s (Cachetic.get_cache_key c key true)

/- ### The document-store backend (`extensions/mongodb.py`) -/

/-- A stored document of the Mongo-backed cache: the value bytes and the
absolute expiry timestamp (`ex`, None for no expiration), keyed by the
unique `name` field. -/
structure MongoDoc where
  value : List Nat
  ex : Option Int

/-- The document collection, keyed by `name` (the constructor installs a
unique index on `name`, so one document per name). -/
def MongoStore : Type := List (String × MongoDoc)

/-- `col.delete_one({"name": name})` under the unique index on `name`. -/
def mongoDelete (s : MongoStore) (name : String) : MongoStore :=
  List.filter (fun e => !(e.1 == name)) s

/-- `MongoCache.set`: a per-call TTL below 1 (or absent) stores no
expiry; otherwise the expiry is the absolute timestamp now + ttl
(`math.ceil` of an int is itself); the write upserts on `name`. -/
def MongoCache.set (s : MongoStore) (now : Int) (name : String)
    (value : List Nat) (ex : Option Int) : MongoStore :=
  let e := match ex with
    | none => none
    | some x => if x < 1 then none else some (now + x)
  (name, ⟨value, e⟩) :: mongoDelete s name

/-- `MongoCache.get`: a missing document is absent; a document with no
expiry returns its value; a document whose expiry is strictly below the
current integer time is deleted from the collection and reported absent;
otherwise the value is returned. Returns the updated collection alongside
the result. -/
def MongoCache.get (s : MongoStore) (now : Int) (name : String) :
    MongoStore × Option (List Nat) :=
  match List.lookup name s with
  | none => (s, none)
  | some d =>
    match d.ex with
    | none => (s, some d.value)
    | some e => if e < now then (mongoDelete s name, none) else (s, some d.value)

/- ### Store lemmas -/

theorem storeGet_storeSet (s : Store) (k : String) (p : Payload) :
    storeGet (storeSet s k p) k = some p := by
  simp [storeGet, storeSet, List.lookup]

theorem lookup_filter_self {β : Type} (s : List (String × β)) (k : String) :
    List.lookup k (List.filter (fun e => !(e.1 == k)) s) = none := by
  induction s with
  | nil => rfl
  | cons a t ih =>
    rcases a with ⟨ka, va⟩
    by_cases h : ka = k
    · subst h
      simpa [List.filter_cons] using ih
    · simp only [List.filter_cons]
      have hb : ((ka, va).1 == k) = false := by simpa using h
      rw [hb]
      simp only [Bool.not_false, if_pos rfl]
      have hkk : (k == ka) = false := by simpa using Ne.symm h
      simpa [List.lookup, hkk] using ih

theorem filter_eq_self_of_lookup_none {β : Type} (s : List (String × β)) (k : String)
    (h : List.lookup k s = none) : List.filter (fun e => !(e.1 == k)) s = s := by
  induction s with
  | nil => rfl
  | cons a t ih =>
    rcases a with ⟨ka, va⟩
    by_cases hk : k = ka
    · subst hk
      simp [List.lookup] at h
    · have hkk : (k == ka) = false := by simpa using hk
      rw [List.lookup, hkk] at h
      have hka : ((ka, va).1 == k) = false := by simpa using Ne.symm hk
      simp only [List.filter_cons, hka, Bool.not_false, if_true]
      rw [ih h]

theorem filter_ne_idem {β : Type} (s : List (String × β)) (k : String) :
    List.filter (fun e => !(e.1 == k)) (List.filter (fun e => !(e.1 == k)) s)
      = List.filter (fun e => !(e.1 == k)) s := by
  rw [List.filter_filter]
  simp

/-- The decoder never raises the library's `CacheNotFoundError`: its
failures are value, type or validation errors. -/
theorem decode_ne_cacheNotFound (t : ObjectType) (p : Payload) :
    decodePayload t p ≠ .error .cacheNotFound := by
  cases t <;> cases p <;> simp only [decodePayload] <;> (try split) <;> simp

/-- `Cachetic.get` never raises `CacheNotFoundError` (only `get_or_raise`
introduces it). -/
theorem get_ne_cacheNotFound (c : Cachetic) (s : Store) (key : String) :
    Cachetic.get c s key ≠ .error .cacheNotFound := by
  unfold Cachetic.get
  split
  · simp
  · split
    · simp
    next data e hdec =>
      intro hcontra
      have he : e = .cacheNotFound := by
        injection hcontra
      rw [he] at hdec
      exact decode_ne_cacheNotFound _ _ hdec

/- ### Claims -/

/-- C2: for every call `set(key, value, ex)`, whenever the backend write
happens its TTL is the per-call `ex` when provided; otherwise the
configured default `cache_ttl` when that default is strictly positive;
otherwise none (no expiration). -/
theorem C2_ttl_resolution (c : Cachetic) (key : String) (v : PyValue) (ex : Option Int)
    (k : String) (p : Payload) (ttl : Option Int)
    (h : Cachetic.set c key v ex = .ok (.wrote k p ttl)) :
    ttl = if ex = none then (if c.cache_ttl > 0 then some c.cache_ttl else none) else ex := by
  simp only [Cachetic.set] at h
  by_cases h0 : resolveTtl ex c.cache_ttl = some 0
  · rw [if_pos h0] at h
    simp at h
  · rw [if_neg h0] at h
    rcases henc : encodeValue c.object_type v with e' | p'
    · rw [henc] at h
      exact Except.noConfusion h
    · simp only [henc] at h
      injection h with h1
      injection h1 with hk hp httl
      rw [← httl]
      rcases ex with - | x <;> rfl

/-- C2 witness: a client with default TTL -1 and a per-call TTL of 5
performs a write whose TTL is 5, as the resolution rule states. -/
theorem C2_witness :
    (some 5 : Option Int) = if (some 5 : Option Int) = none
      then (if (Cachetic.mk .int none "./.cache" (-1) "").cache_ttl > 0
        then some (Cachetic.mk .int none "./.cache" (-1) "").cache_ttl else none)
      else some 5 :=
  C2_ttl_resolution (Cachetic.mk .int none "./.cache" (-1) "") "k" (.int 7) (some 5)
    "k" (.text (intToDecString 7)) (some 5) rfl

/-- C3: the claim says a configured default `cache_ttl` of exactly 0
disables `set` entirely (a no-op for every per-call `ex`); the code's own
field docstring agrees ("0: disable cache"), but the code does not: with
`cache_ttl = 0` and no per-call TTL, line 180 resolves `ex` to `None`
(`0 > 0` is false) and `None == 0` is false in Python, so the write
proceeds with no expiration; with a per-call TTL of 5 it writes with TTL
5. This theorem evaluates the embedded `set` at both failing inputs. -/
theorem C3_ttl_zero_still_writes :
    Cachetic.set (Cachetic.mk .bytes none "./.cache" 0 "") "k" (.bytes [1]) none
      = .ok (.wrote "k" (.raw [1]) none) ∧
    Cachetic.set (Cachetic.mk .bytes none "./.cache" 0 "") "k" (.bytes [1]) (some 5)
      = .ok (.wrote "k" (.raw [1]) (some 5)) :=
  ⟨rfl, rfl⟩

/-- C5: the physical key equals "pfx:key" exactly when the configured
namespace is non-empty and the logical key unchanged otherwise; it is a
pure function of the client's configuration and the logical key, the
write path stores under exactly this key, and the read path depends on
the backend state only through this key. -/
theorem C5_physical_key (c : Cachetic) (key : String) :
    Cachetic.get_cache_key c key true
      = (if c.cache_pfx = "" then key else c.cache_pfx ++ ":" ++ key) ∧
    (∀ v ex k p ttl, Cachetic.set c key v ex = .ok (.wrote k p ttl) →
      k = Cachetic.get_cache_key c key true) ∧
    (∀ s₁ s₂ : Store,
      storeGet s₁ (Cachetic.get_cache_key c key true)
        = storeGet s₂ (Cachetic.get_cache_key c key true) →
      Cachetic.get c s₁ key = Cachetic.get c s₂ key) := by
  refine ⟨?_, ?_, ?_⟩
  · by_cases h : c.cache_pfx = "" <;> simp [Cachetic.get_cache_key, h]
  · intro v ex k p ttl h
    simp only [Cachetic.set] at h
    by_cases h0 : resolveTtl ex c.cache_ttl = some 0
    · rw [if_pos h0] at h
      simp at h
    · rw [if_neg h0] at h
      rcases henc : encodeValue c.object_type v with e' | p'
      · rw [henc] at h
        exact Except.noConfusion h
      · simp only [henc] at h
        injection h with h1
        injection h1 with hk hp httl
        exact hk.symm
  · intro s₁ s₂ h
    unfold Cachetic.get
    rw [h]

/-- C5 witness: a client with namespace "app" reading and writing the
logical key "k" uses the physical key "app:k" on both paths. -/
theorem C5_witness :
    let c := Cachetic.mk .bytes none "./.cache" (-1) "app"
    Cachetic.get_cache_key c "k" true
      = (if c.cache_pfx = "" then "k" else c.cache_pfx ++ ":" ++ "k") ∧
    "app:k" = Cachetic.get_cache_key c "k" true ∧
    Cachetic.get c [("app:k", .raw [7])] "k" = Cachetic.get c [("x", .raw [9]), ("app:k", .raw [7])] "k" := by
  refine ⟨(C5_physical_key _ "k").1, ?_, ?_⟩
  · exact (C5_physical_key _ "k").2.1 (.bytes [7]) none "app:k" (.raw [7]) none rfl
  · exact (C5_physical_key _ "k").2.2 _ _ rfl

/-- C10: an explicit per-call TTL of exactly 0 suppresses the write for
every client, whatever the configured default: the call returns without
error having requested nothing of the backend, and a skipped request
leaves any backend state unchanged. -/
theorem C10_explicit_zero_ttl (c : Cachetic) (key : String) (v : PyValue) (s : Store) :
    Cachetic.set c key v (some 0) = .ok .skipped ∧ applySet s .skipped = s :=
  ⟨rfl, rfl⟩

/-- C1: for every supported logical type descriptor and representative
value, encoding succeeds, decoding the produced payload yields the value
back, and concretely a `get` immediately following a `set` on the same
client (with the resolved TTL not disabling the write) returns an equal
value. -/
theorem C1_set_get_roundtrip (c : Cachetic) (s : Store) (key : String) (v : PyValue)
    (ex : Option Int)
    (hv : wellTyped c.object_type v = true)
    (hex : resolveTtl ex c.cache_ttl ≠ some 0) :
    ∃ p ttl,
      Cachetic.set c key v ex = .ok (.wrote (Cachetic.get_cache_key c key true) p ttl) ∧
      decodePayload c.object_type p = .ok v ∧
      Cachetic.get c (applySet s (.wrote (Cachetic.get_cache_key c key true) p ttl)) key
        = .ok (some v) := by
  obtain ⟨p, henc, hdec⟩ := codec_roundtrip _ _ hv
  refine ⟨p, resolveTtl ex c.cache_ttl, ?_, hdec, ?_⟩
  · simp only [Cachetic.set]
    rw [if_neg hex, henc]
  · simp only [Cachetic.get, applySet, storeGet_storeSet, hdec]

/-- C1 witness: a client of integer type with namespace "p" and default
TTL -1 round-trips the value 42 through `set` then `get`. -/
theorem C1_witness :
    ∃ p ttl,
      Cachetic.set (Cachetic.mk .int none "./.cache" (-1) "p") "k" (.int 42) none

        = .ok (.wrote (Cachetic.get_cache_key (Cachetic.mk .int none "./.cache" (-1) "p") "k" true) p ttl) ∧
      decodePayload (Cachetic.mk .int none "./.cache" (-1) "p").object_type p = .ok (.int 42) ∧
      Cachetic.get (Cachetic.mk .int none "./.cache" (-1) "p")
        (applySet ([] : Store)
          (.wrote (Cachetic.get_cache_key (Cachetic.mk .int none "./.cache" (-1) "p") "k" true) p ttl)) "k"
        = .ok (some (.int 42)) :=
  C1_set_get_roundtrip (Cachetic.mk .int none "./.cache" (-1) "p") ([] : Store) "k"
    (.int 42) none rfl (by decide)

/-- C4: `get_or_raise` fails with `CacheNotFoundError` exactly when `get`
returns absent, and returns exactly the value `get` returns when one is
present. -/
theorem C4_get_or_fail (c : Cachetic) (s : Store) (key : String) :
    (Cachetic.get_or_raise c s key = .error .cacheNotFound ↔ Cachetic.get c s key = .ok none) ∧
    (∀ v, Cachetic.get c s key = .ok (some v) → Cachetic.get_or_raise c s key = .ok v) := by
  refine ⟨⟨?_, ?_⟩, ?_⟩
  · intro h
    rcases hg : Cachetic.get c s key with e | ov
    · simp only [Cachetic.get_or_raise, hg] at h
      injection h with he
      rw [he] at hg
      exact absurd hg (get_ne_cacheNotFound c s key)
    · rcases ov with - | v
      · rfl
      · simp [Cachetic.get_or_raise, hg] at h
  · intro h
    simp [Cachetic.get_or_raise, h]
  · intro v h
    simp [Cachetic.get_or_raise, h]

/-- C4 witness: on a store holding decimal text "5" under "k" an integer
client's `get_or_raise` returns 5; on the empty store the not-found
equivalence holds. -/
theorem C4_witness :
    Cachetic.get_or_raise (Cachetic.mk .int none "./.cache" (-1) "") [("k", Payload.text "5")] "k"
      = .ok (.int 5) ∧
    (Cachetic.get_or_raise (Cachetic.mk .int none "./.cache" (-1) "") ([] : Store) "k"
        = .error .cacheNotFound ↔
      Cachetic.get (Cachetic.mk .int none "./.cache" (-1) "") ([] : Store) "k" = .ok none) :=
  ⟨(C4_get_or_fail (Cachetic.mk .int none "./.cache" (-1) "") [("k", Payload.text "5")] "k").2
      (.int 5) rfl,
   (C4_get_or_fail (Cachetic.mk .int none "./.cache" (-1) "") ([] : Store) "k").1⟩

/-- C6: the client's `delete` computes the physical key and forwards the
removal to the backend, whose delete removes the entry, is idempotent,
and is a total no-op (no error) when the key is absent. (`Cachetic.delete`
and the backend drivers' delete are modelled from the spec; see their
definitions.) -/
theorem C6_delete_contract (c : Cachetic) (s : Store) (key : String) :
    Cachetic.delete c s key = backendDelete s (Cachetic.get_cache_key c key true) ∧
    storeGet (Cachetic.delete c s key) (Cachetic.get_cache_key c key true) = none ∧
    backendDelete (Cachetic.delete c s key) (Cachetic.get_cache_key c key true)
      = Cachetic.delete c s key ∧
    (storeGet s (Cachetic.get_cache_key c key true) = none → Cachetic.delete c s key = s) := by
  refine ⟨rfl, ?_, ?_, ?_⟩
  · exact lookup_filter_self s _
  · exact filter_ne_idem s _
  · intro h
    exact filter_eq_self_of_lookup_none s _ h

/-- C6 witness: deleting the absent key "k" leaves a store untouched and
raises nothing, and deleting a present "k" removes it. -/
theorem C6_witness :
    Cachetic.delete (Cachetic.mk .bytes none "./.cache" (-1) "") [("a", Payload.raw [1])] "k"
      = [("a", Payload.raw [1])] ∧
    storeGet (Cachetic.delete (Cachetic.mk .bytes none "./.cache" (-1) "")
      [("k", Payload.raw [1])] "k") "k" = none :=
  ⟨(C6_delete_contract (Cachetic.mk .bytes none "./.cache" (-1) "")
      [("a", Payload.raw [1])] "k").2.2.2 rfl,
   (C6_delete_contract (Cachetic.mk .bytes none "./.cache" (-1) "")
      [("k", Payload.raw [1])] "k").2.1⟩

/-- C7: the document-store backend's `get`: an entry whose expiry is
strictly in the past is physically deleted and reported absent; an entry
with no expiry, or an expiry not in the past, has its stored value bytes
returned (and the collection is untouched). -/
theorem C7_mongo_lazy_eviction (s : MongoStore) (now : Int) (name : String) (d : MongoDoc)
    (h : List.lookup name s = some d) :
    (∀ e, d.ex = some e → e < now →
      MongoCache.get s now name = (mongoDelete s name, none) ∧
      List.lookup name (mongoDelete s name) = none) ∧
    (d.ex = none → MongoCache.get s now name = (s, some d.value)) ∧
    (∀ e, d.ex = some e → ¬ e < now → MongoCache.get s now name = (s, some d.value)) := by
  refine ⟨?_, ?_, ?_⟩
  · intro e he hlt
    exact ⟨by simp [MongoCache.get, h, he, hlt], lookup_filter_self s name⟩
  · intro he
    simp [MongoCache.get, h, he]
  · intro e he hlt
    simp [MongoCache.get, h, he, hlt]

/-- C7 witness: at time 20 a document with expiry 10 is evicted and
absent; a document with no expiry returns its bytes. -/
theorem C7_witness :
    (MongoCache.get [("n", MongoDoc.mk [1] (some 10))] 20 "n"
        = (mongoDelete [("n", MongoDoc.mk [1] (some 10))] "n", none) ∧
      List.lookup "n" (mongoDelete [("n", MongoDoc.mk [1] (some 10))] "n") = none) ∧
    MongoCache.get [("m", MongoDoc.mk [2] none)] 20 "m"
      = ([("m", MongoDoc.mk [2] none)], some [2]) :=
  ⟨(C7_mongo_lazy_eviction [("n", MongoDoc.mk [1] (some 10))] 20 "n"
      (MongoDoc.mk [1] (some 10)) rfl).1 10 rfl (by norm_num),
   (C7_mongo_lazy_eviction [("m", MongoDoc.mk [2] none)] 20 "m"
      (MongoDoc.mk [2] none) rfl).2.1 rfl⟩

/-- C8 counterexample: the claim says `get` raises for every key on a
client whose type descriptor matches no dispatch rule, but on an absent
key the source returns `None` before reaching the dispatch: here a get on
the empty store returns absent without error. -/
theorem C8_counterexample :
    Cachetic.get (Cachetic.mk .unsupported none "./.cache" (-1) "") ([] : Store) "k"
      = .ok none := rfl

/-- C8 amended: on a client whose type descriptor matches no dispatch
rule, `set` without a per-call TTL raises the "Unsupported object type"
`ValueError` for every key and value, and `get` raises it whenever the
key is present in the backend (on an absent key `get` returns absent
without error, per the counterexample). -/
theorem C8_unsupported_raises (c : Cachetic) (s : Store) (key : String) (v : PyValue)
    (data : Payload) (ht : c.object_type = .unsupported) :
    Cachetic.set c key v none = .error (.valueError "Unsupported object type") ∧
    (storeGet s (Cachetic.get_cache_key c key true) = some data →
      Cachetic.get c s key = .error (.valueError "Unsupported object type")) := by
  constructor
  · have h0 : resolveTtl none c.cache_ttl ≠ some 0 := by
      show (if c.cache_ttl > 0 then some c.cache_ttl else none) ≠ some 0
      split
      · next hgt =>
        intro hc
        injection hc with hc0
        omega
      · simp
    simp only [Cachetic.set]
    rw [if_neg h0, ht]
    cases v <;> rfl
  · intro hs
    simp only [Cachetic.get, hs, ht]
    cases data <;> rfl

/-- C8 witness: on the unsupported-type client, `set` of any value and
`get` of a present key both surface the unsupported-object-type error. -/
theorem C8_witness :
    Cachetic.set (Cachetic.mk .unsupported none "./.cache" (-1) "") "k" (.int 0) none
      = .error (.valueError "Unsupported object type") ∧
    Cachetic.get (Cachetic.mk .unsupported none "./.cache" (-1) "") [("k", Payload.raw [1])] "k"
      = .error (.valueError "Unsupported object type") :=
  ⟨(C8_unsupported_raises (Cachetic.mk .unsupported none "./.cache" (-1) "")
      [("k", Payload.raw [1])] "k" (.int 0) (.raw [1]) rfl).1,
   (C8_unsupported_raises (Cachetic.mk .unsupported none "./.cache" (-1) "")
      [("k", Payload.raw [1])] "k" (.int 0) (.raw [1]) rfl).2 rfl⟩

/-- C9: the integer codec encodes a value as its decimal text bytes,
decoding parses that text back to an equal integer, and decoding fails
with a (ValueError-class) decode error on any payload containing no
decimal digit at all. -/
theorem C9_int_codec :
    (∀ n : Int, encodeValue .int (.int n) = .ok (.text (intToDecString n)) ∧
      decodePayload .int (.text (intToDecString n)) = .ok (.int n)) ∧
    (∀ s : String, (∀ ch ∈ s.data, ¬(48 ≤ ch.toNat ∧ ch.toNat ≤ 57)) →
      decodePayload .int (.text s) = .error (.valueError "invalid literal for int")) := by
  constructor
  · intro n
    refine ⟨rfl, ?_⟩
    simp only [decodePayload, parseInt_intToDecString]
  · intro s hs
    simp only [decodePayload, parseInt_none_of_no_digit s hs]

/-- C9 witness: 42 encodes to the text "42" and decodes back, and the
non-numeric payload "abc" fails to decode. -/
theorem C9_witness :
    (encodeValue .int (.int 42) = .ok (.text (intToDecString 42)) ∧
      decodePayload .int (.text (intToDecString 42)) = .ok (.int 42)) ∧
    decodePayload .int (.text "abc") = .error (.valueError "invalid literal for int") :=
  ⟨C9_int_codec.1 42, C9_int_codec.2 "abc" (by decide)⟩
